import Mathlib

/-!
Verification development for the OpChan core engine.

The definitions below are shallow embeddings of the OpChan data model and
operations: the message types and cache collections of `LocalDatabase`
(`@opchan/core` architecture guide), the `verifyMessage` / signing logic of
`DelegationManager`, the `calculateScore` relevance function, the derived
view computations `cellsWithStats` and `commentsByPost` of the `useContent`
hook, and the `FollowingService` operations.  Strings stay `String`,
millisecond timestamps become `Int`, JS numbers in the scoring function
become `ℝ`, and the Ed25519 / wallet-ECDSA primitives are abstracted as
function parameters.
-/

namespace OpChan

/-- A cell message (`CellMessage` in the API reference). -/
structure CellMsg where
  id : String
  name : String
  description : String
  timestamp : Int
  author : String
deriving DecidableEq, Repr

/-- A post message (`PostMessage`). -/
structure PostMsg where
  id : String
  cellId : String
  title : String
  content : String
  timestamp : Int
  author : String
deriving DecidableEq, Repr

/-- A comment message (`CommentMessage`). -/
structure CommentMsg where
  id : String
  postId : String
  content : String
  timestamp : Int
  author : String
deriving DecidableEq, Repr

/-- A vote message (`VoteMessage`); `value` is `1` or `-1`. -/
structure VoteMsg where
  id : String
  targetId : String
  value : Int
  timestamp : Int
  author : String
deriving DecidableEq, Repr

/-- A moderation message (`ModerateMessage`): action is `"moderate"` or
`"unmoderate"`, targetKind is `"post"`, `"comment"` or `"user"`. -/
structure ModerateMsg where
  id : String
  cellId : String
  targetKind : String
  targetId : String
  action : String
  timestamp : Int
  author : String
deriving DecidableEq, Repr

/-- A profile-update message (`UserProfileUpdateMessage`). -/
structure ProfileUpdateMsg where
  id : String
  callSign : String
  displayPreference : String
  timestamp : Int
  author : String
deriving DecidableEq, Repr

/-- The tagged union of forum message kinds dispatched by
`LocalDatabase.applyMessage` (`MessageType` enum). -/
inductive ForumMessage
  | cell (c : CellMsg)
  | post (p : PostMsg)
  | comment (c : CommentMsg)
  | vote (v : VoteMsg)
  | moderate (m : ModerateMsg)
  | profileUpdate (u : ProfileUpdateMsg)
deriving DecidableEq, Repr

/-- The `message.type` string of a message (values of the `MessageType` enum). -/
def ForumMessage.typeTag : ForumMessage → String
  | .cell _ => "cell"
  | .post _ => "post"
  | .comment _ => "comment"
  | .vote _ => "vote"
  | .moderate _ => "moderate"
  | .profileUpdate _ => "user_profile_update"

/-- The `message.id` field. -/
def ForumMessage.msgId : ForumMessage → String
  | .cell c => c.id
  | .post p => p.id
  | .comment c => c.id
  | .vote v => v.id
  | .moderate m => m.id
  | .profileUpdate u => u.id

/-- The `message.timestamp` field. -/
def ForumMessage.msgTimestamp : ForumMessage → Int
  | .cell c => c.timestamp
  | .post p => p.timestamp
  | .comment c => c.timestamp
  | .vote v => v.timestamp
  | .moderate m => m.timestamp
  | .profileUpdate u => u.timestamp

/-- The deduplication key of `LocalDatabase`:
`` `${message.type}:${message.id}:${message.timestamp}` ``. -/
def messageKey (m : ForumMessage) : String :=
  m.typeTag ++ ":" ++ m.msgId ++ ":" ++ toString m.msgTimestamp

end OpChan

namespace OpChan

/-- The in-memory cache of `LocalDatabase` (`LocalDatabaseCache`), together
with the `seen` dedup set and the last-sync timestamp.  The keyed JS objects
become lists keyed by the corresponding fields. -/
structure Replica where
  cells : List CellMsg
  posts : List PostMsg
  comments : List CommentMsg
  votes : List VoteMsg
  moderations : List ModerateMsg
  identities : List ProfileUpdateMsg
  seen : List String
  lastSync : Option Int
deriving DecidableEq, Repr

/-- The freshly opened, empty replica. -/
def emptyReplica : Replica :=
  { cells := [], posts := [], comments := [], votes := [], moderations := [],
    identities := [], seen := [], lastSync := none }

/-- Look up the stored vote in the `(targetId, author)` slot of the
`votes` collection (`votes[targetId:author]`). -/
def lookupVote (votes : List VoteMsg) (targetId author : String) : Option VoteMsg :=
  votes.find? (fun w => w.targetId == targetId && w.author == author)

/-- Modelled from the spec: the vote slot update of `applyMessage` is not in
the sources (only the cache collection `votes[targetId:author]` is shown), so
it follows the spec's algorithm: "Vote: upsert the `(target_id, author)` slot
iff the incoming timestamp is strictly greater than the stored one." -/
def upsertVote (v : VoteMsg) (votes : List VoteMsg) : List VoteMsg :=
  match votes.find? (fun w => w.targetId == v.targetId && w.author == v.author) with
  | none => votes ++ [v]
  | some w =>
    if w.timestamp < v.timestamp then
      votes.map (fun x => if x.targetId == v.targetId && x.author == v.author then v else x)
    else votes

/-- Whether `x` occupies the same `(cell_id, target_kind, target_id)`
moderation slot as `m`. -/
def sameModerationKey (m x : ModerateMsg) : Bool :=
  x.cellId == m.cellId && x.targetKind == m.targetKind && x.targetId == m.targetId

/-- Modelled from the spec: the moderation slot update of `applyMessage` is
not in the sources; it follows the spec's algorithm: "Moderate: upsert
`(cell_id, target_kind, target_id)` by latest timestamp, ties broken by
lexicographic message-id." -/
def upsertModeration (m : ModerateMsg) (mods : List ModerateMsg) : List ModerateMsg :=
  match mods.find? (sameModerationKey m) with
  | none => mods ++ [m]
  | some w =>
    if w.timestamp < m.timestamp ||
        (w.timestamp == m.timestamp && decide (w.id < m.id)) then
      mods.map (fun x => if sameModerationKey m x then m else x)
    else mods

/-- Insert a cell if its id is not already present ("insert if absent"). -/
def insertCell (c : CellMsg) (cells : List CellMsg) : List CellMsg :=
  if cells.any (fun x => x.id == c.id) then cells else cells ++ [c]

/-- Insert a post if its id is not already present. -/
def insertPost (p : PostMsg) (posts : List PostMsg) : List PostMsg :=
  if posts.any (fun x => x.id == p.id) then posts else posts ++ [p]

/-- Insert a comment if its id is not already present. -/
def insertComment (c : CommentMsg) (comments : List CommentMsg) : List CommentMsg :=
  if comments.any (fun x => x.id == c.id) then comments else comments ++ [c]

/-- Insert a profile update if its author's slot is not already present. -/
def insertProfile (u : ProfileUpdateMsg) (ids : List ProfileUpdateMsg) : List ProfileUpdateMsg :=
  if ids.any (fun x => x.author == u.author) then ids else ids ++ [u]

/-- Step 4 of `applyMessage`: update the primary index for the message kind
("Store in appropriate cache collection"). -/
def updateIndex (m : ForumMessage) (r : Replica) : Replica :=
  match m with
  | .cell c => { r with cells := insertCell c r.cells }
  | .post p => { r with posts := insertPost p r.posts }
  | .comment c => { r with comments := insertComment c r.comments }
  | .vote v => { r with votes := upsertVote v r.votes }
  | .moderate mo => { r with moderations := upsertModeration mo r.moderations }
  | .profileUpdate u => { r with identities := insertProfile u r.identities }

/-- `last_sync_ms = max(last_sync_ms, message.timestamp)`. -/
def bumpLastSync (ls : Option Int) (t : Int) : Option Int :=
  match ls with
  | none => some t
  | some s => some (max s t)

/-- Outcome of `applyMessage`: the spec's *accepted* / *duplicate* /
*rejected* (the implementation returns `true` only for *accepted*). -/
inductive ApplyResult
  | accepted
  | duplicate
  | rejected
deriving DecidableEq, Repr

/-- `LocalDatabase.applyMessage`: validate (structure + signature, abstracted
into the `valid` predicate as `MessageValidator.isValidMessage`), then check
the dedup key against `seen`, then update the index for the kind, record the
key and bump the sync timestamp. -/
def applyMessage (valid : ForumMessage → Bool) (m : ForumMessage) (r : Replica) :
    Replica × ApplyResult :=
  if valid m then
    if r.seen.contains (messageKey m) then (r, .duplicate)
    else
      ({ updateIndex m r with
          seen := messageKey m :: (updateIndex m r).seen,
          lastSync := bumpLastSync (updateIndex m r).lastSync m.msgTimestamp }, .accepted)
  else (r, .rejected)

end OpChan

namespace OpChan

/-- Whether `haystack` starts with `needle` (character-list form). -/
def charsStartWith : List Char → List Char → Bool
  | _, [] => true
  | [], _ :: _ => false
  | c :: cs, d :: ds => c == d && charsStartWith cs ds

/-- Whether `needle` occurs as a contiguous segment of `haystack`. -/
def charsHasSeg : List Char → List Char → Bool
  | [], needle => needle.isEmpty
  | c :: cs, needle => charsStartWith (c :: cs) needle || charsHasSeg cs needle

/-- JS `s.includes(pat)`: substring containment. -/
def containsSubstr (s pat : String) : Bool :=
  charsHasSeg s.toList pat.toList

/-- A hexadecimal digit, case-insensitive (the `/i` flag of the session-id
regular expression). -/
def isHexDigit (c : Char) : Bool :=
  ('0' ≤ c && c ≤ '9') || ('a' ≤ c && c ≤ 'f') || ('A' ≤ c && c ≤ 'F')

/-- The session-id shape test of `verifyMessage`:
`/^[0-9a-f]{8}-[0-9a-f]{4}-[0-9a-f]{4}-[0-9a-f]{4}-[0-9a-f]{12}$/i`,
i.e. 36 characters with dashes at positions 8, 13, 18, 23 and hex digits
everywhere else. -/
def isUuidFormat (s : String) : Bool :=
  let cs := s.toList
  cs.length == 36 &&
    (List.range 36).all (fun i =>
      if i == 8 || i == 13 || i == 18 || i == 23 then cs.getD i ' ' == '-'
      else isHexDigit (cs.getD i ' '))

/-- The delegation proof attached to wallet-user messages
(`DelegationProof`). -/
structure DelegationProof where
  authMessage : String
  walletSignature : String
  expiryTimestamp : Nat
  walletAddress : String
deriving DecidableEq, Repr

/-- A signed message as seen by `verifyMessage` (`OpchanMessage`): the
message envelope, the kind-specific fields collapsed into `payload`, plus
`signature`, `browserPubKey` and the optional `delegationProof`. -/
structure OpchanMessage where
  typeTag : String
  id : String
  timestamp : Int
  author : String
  payload : String
  signature : String
  browserPubKey : String
  delegationProof : Option DelegationProof
deriving DecidableEq, Repr

/-- The canonical signing payload: the deterministic serialization of the
message with `signature`, `browserPubKey` and `delegationProof` removed
(`JSON.stringify({...message, signature: undefined, browserPubKey:
undefined, delegationProof: undefined})`; the exact textual form is an
interoperability constant). -/
def canonicalPayload (typeTag idStr : String) (timestamp : Int)
    (author payload : String) : String :=
  "author:" ++ author ++ ",id:" ++ idStr ++ ",payload:" ++ payload ++
    ",timestamp:" ++ toString timestamp ++ ",type:" ++ typeTag

/-- The canonical signing payload of a signed message. -/
def OpchanMessage.signedPayload (m : OpchanMessage) : String :=
  canonicalPayload m.typeTag m.id m.timestamp m.author m.payload

/-- `DelegationManager.verifyMessage`, with the cryptographic primitives
abstracted: `ed25519Verify signature payload pubKey` and
`verifyWalletSignature account message signature`.  Mirrors the verification
logic: (1) verify the message signature against the browser public key;
(2) with a delegation proof, verify the wallet signature over
`authMessage` and require `authMessage` to contain the browser public key,
the wallet address, and the decimal rendering of the expiry timestamp;
(3) without a proof, require `author` to match the session-id shape. -/
def verifyMessage (ed25519Verify : String → String → String → Bool)
    (verifyWalletSignature : String → String → String → Bool)
    (m : OpchanMessage) : Bool :=
  if !ed25519Verify m.signature m.signedPayload m.browserPubKey then false
  else
    match m.delegationProof with
    | some proof =>
      if !verifyWalletSignature proof.walletAddress proof.authMessage proof.walletSignature then
        false
      else if !containsSubstr proof.authMessage m.browserPubKey then false
      else if !containsSubstr proof.authMessage proof.walletAddress then false
      else if !containsSubstr proof.authMessage (toString proof.expiryTimestamp) then false
      else true
    | none => isUuidFormat m.author

/-- `verifyMessage` with the wall clock made explicit: the implementation
reads no clock, so the extra argument is unused. -/
def verifyMessageAt (ed25519Verify : String → String → String → Bool)
    (verifyWalletSignature : String → String → String → Bool)
    (m : OpchanMessage) (_now : Int) : Bool :=
  verifyMessage ed25519Verify verifyWalletSignature m

/-- An unsigned message handed to `DelegationManager.signMessage`. -/
structure UnsignedMessage where
  typeTag : String
  id : String
  timestamp : Int
  author : String
  payload : String
deriving DecidableEq, Repr

/-- The stored delegation record: wallet-backed (`WalletDelegationInfo`,
carrying the proof) or anonymous (`AnonymousDelegationInfo`, carrying only a
session id and expiry). -/
inductive DelegationInfo
  | wallet (browserPublicKey browserPrivateKey : String) (proof : DelegationProof)
  | anon (sessionId browserPublicKey browserPrivateKey : String) (expiryTimestamp : Nat)
deriving DecidableEq, Repr

/-- The delegation's browser public key. -/
def DelegationInfo.pubKey : DelegationInfo → String
  | .wallet pk _ _ => pk
  | .anon _ pk _ _ => pk

/-- The delegation's browser private key. -/
def DelegationInfo.privKey : DelegationInfo → String
  | .wallet _ sk _ => sk
  | .anon _ _ sk _ => sk

/-- The delegation's expiry timestamp (for wallet delegations, the proof's). -/
def DelegationInfo.expiry : DelegationInfo → Nat
  | .wallet _ _ proof => proof.expiryTimestamp
  | .anon _ _ _ e => e

/-- The delegation proof attached to outgoing messages: present for wallet
delegations, absent for anonymous ones. -/
def DelegationInfo.proofOpt : DelegationInfo → Option DelegationProof
  | .wallet _ _ proof => some proof
  | .anon _ _ _ _ => none

/-- `DelegationManager.signMessage`: refuse if the delegation has expired,
otherwise sign the canonical payload with the browser private key
(`ed25519Sign privKey payload`) and attach signature, browser public key
and — for wallet delegations only — the delegation proof. -/
def signMessage (ed25519Sign : String → String → String) (now : Nat)
    (d : DelegationInfo) (u : UnsignedMessage) : Option OpchanMessage :=
  if d.expiry ≤ now then none
  else some
    { typeTag := u.typeTag, id := u.id, timestamp := u.timestamp,
      author := u.author, payload := u.payload,
      signature := ed25519Sign d.privKey
        (canonicalPayload u.typeTag u.id u.timestamp u.author u.payload),
      browserPubKey := d.pubKey,
      delegationProof := d.proofOpt }

end OpChan

namespace OpChan

/-- `votes.filter(v => v.value === 1).length` in `calculateScore`. -/
def upvoteCount (votes : List VoteMsg) : Nat :=
  (votes.filter (fun v => v.value == 1)).length

/-- `votes.filter(v => v.value === 1 && verifications.get(v.author)).length`. -/
def verifiedUpvoteCount (verifications : String → Bool) (votes : List VoteMsg) : Nat :=
  (votes.filter (fun v => v.value == 1 && verifications v.author)).length

/-- `new Set(comments.map(c => c.author).filter(a => verifications.get(a))).size`:
the number of distinct verified comment authors. -/
def verifiedCommenterCount (verifications : String → Bool)
    (comments : List CommentMsg) : Nat :=
  ((comments.map (fun c => c.author)).filter (fun a => verifications a)).dedup.length

/-- The score of `calculateScore` before time decay and moderation: the base
100, then engagement, then the author / verified-upvoter /
verified-commenter bonuses, accumulated in the code's order. -/
noncomputable def rawScore (post : PostMsg) (votes : List VoteMsg)
    (comments : List CommentMsg) (verifications : String → Bool) : ℝ :=
  (((100 + ((upvoteCount votes : ℝ) * 10 + (comments.length : ℝ) * 3))
      + (if verifications post.author then (20 : ℝ) else 0))
      + (verifiedUpvoteCount verifications votes : ℝ) * 5)
      + (verifiedCommenterCount verifications comments : ℝ) * 10

/-- The exponential time decay of `calculateScore`:
`Math.exp(-0.693 * daysOld / 7)` with
`daysOld = (now - post.timestamp) / (1000*60*60*24)`. -/
noncomputable def timeDecay (now ts : Int) : ℝ :=
  Real.exp (-0.693 * (((now : ℝ) - (ts : ℝ)) / (1000 * 60 * 60 * 24)) / 7)

/-- `RelevanceCalculator.calculateScore` (architecture guide): the raw score
times the exponential decay, halved when a moderation record exists for the
post id (`moderations.has(post.id)`), clamped below by 0. -/
noncomputable def calculateScore (now : Int) (post : PostMsg) (votes : List VoteMsg)
    (comments : List CommentMsg) (verifications : String → Bool)
    (hasModeration : String → Bool) : ℝ :=
  max 0
    (if hasModeration post.id then
      (rawScore post votes comments verifications * timeDecay now post.timestamp) * 0.5
    else rawScore post votes comments verifications * timeDecay now post.timestamp)

/-- Modelled from the spec: the relevance formula as the specification text
writes it, with `decay = exp(-ln(2) * days_old / 7)`, for comparison with
`calculateScore` (whose decay constant is the literal `0.693`). -/
noncomputable def relevanceScoreSpec (now : Int) (post : PostMsg) (votes : List VoteMsg)
    (comments : List CommentMsg) (verifications : String → Bool)
    (hasModeration : String → Bool) : ℝ :=
  max 0
    ((100 + 10 * (upvoteCount votes : ℝ) + 3 * (comments.length : ℝ)
        + (if verifications post.author then (20 : ℝ) else 0)
        + 5 * (verifiedUpvoteCount verifications votes : ℝ)
        + 10 * (verifiedCommenterCount verifications comments : ℝ))
      * Real.exp (-(Real.log 2) * (((now : ℝ) - (post.timestamp : ℝ)) / 86400000) / 7)
      * (if hasModeration post.id then (0.5 : ℝ) else 1))

end OpChan

namespace OpChan

/-- The posts of a cell, as iterated by `cellsWithStats`
(`p.cellId === cell.id`). -/
def cellPosts (posts : List PostMsg) (cellId : String) : List PostMsg :=
  posts.filter (fun p => p.cellId == cellId)

/-- The comments attributed to a cell by `cellsWithStats`: for each comment
the hook looks up `content.posts.find(pp => pp.id === c.postId)` and, when a
post is found, files the comment under that post's cell. -/
def cellComments (posts : List PostMsg) (comments : List CommentMsg)
    (cellId : String) : List CommentMsg :=
  comments.filter (fun c =>
    match posts.find? (fun pp => pp.id == c.postId) with
    | some post => post.cellId == cellId
    | none => false)

/-- The 7-day recent-activity window of `cellsWithStats`
(`7 * 24 * 60 * 60 * 1000` milliseconds). -/
def recentWindowMs : Int := 7 * 24 * 60 * 60 * 1000

/-- A cell together with the statistics computed by `cellsWithStats`
(`Cell & { postCount; activeUsers; recentActivity }`). -/
structure EnhancedCell where
  cell : CellMsg
  postCount : Nat
  activeUsers : Nat
  recentActivity : Nat
deriving DecidableEq, Repr

/-- The `cellsWithStats` derived view of the `useContent` hook: per cell, the
number of its posts, the size of the set of authors of its posts and of the
comments filed under it, and the number of those posts and comments whose
timestamp lies within the last 7 days (`now - timestamp <= recentWindowMs`). -/
def cellsWithStats (now : Int) (cells : List CellMsg) (posts : List PostMsg)
    (comments : List CommentMsg) : List EnhancedCell :=
  cells.map (fun cell =>
    { cell := cell,
      postCount := (cellPosts posts cell.id).length,
      activeUsers :=
        ((cellPosts posts cell.id).map (fun p => p.author)
          ++ (cellComments posts comments cell.id).map (fun c => c.author)).dedup.length,
      recentActivity :=
        ((cellPosts posts cell.id).filter
            (fun p => now - p.timestamp ≤ recentWindowMs)).length
          + ((cellComments posts comments cell.id).filter
              (fun c => now - c.timestamp ≤ recentWindowMs)).length })

/-- The `commentsByPost` derived view of the `useContent` hook: the comments
of a post id, sorted ascending by timestamp
(`.sort((a, b) => a.timestamp - b.timestamp)`). -/
def commentsByPost (comments : List CommentMsg) (postId : String) : List CommentMsg :=
  (comments.filter (fun c => c.postId == postId)).mergeSort
    (fun a b => decide (a.timestamp ≤ b.timestamp))

end OpChan

namespace OpChan

/-- A following record (`Following`):
`id = userId + ":" + followedAddress`. -/
structure Following where
  id : String
  userId : String
  followedAddress : String
  followedAt : Int
deriving DecidableEq, Repr

/-- Modelled from the spec: the `following` table of `LocalDatabase`
(`map<id → Following>`); the `addFollowing` / `removeFollowing` /
`isFollowing` operations used by `FollowingService` are not in the sources. -/
abbrev FollowStore : Type := String → Option Following

/-- Modelled from the spec: `localDatabase.addFollowing` stores the record
under its id. -/
def addFollowing (f : Following) (s : FollowStore) : FollowStore :=
  fun k => if k = f.id then some f else s k

/-- Modelled from the spec: `localDatabase.removeFollowing` deletes the
record with the given id. -/
def removeFollowing (followingId : String) (s : FollowStore) : FollowStore :=
  fun k => if k = followingId then none else s k

/-- Modelled from the spec: `localDatabase.isFollowing(userId,
followedAddress)` checks the `userId + ":" + followedAddress` slot. -/
def isFollowing (userId followedAddress : String) (s : FollowStore) : Bool :=
  (s (userId ++ ":" ++ followedAddress)).isSome

/-- `FollowingService.followUser`: build the record with id
`` `${userId}:${followedAddress}` `` and `followedAt = Date.now()` and store
it. -/
def followUser (now : Int) (userId followedAddress : String) (s : FollowStore) :
    FollowStore × Following :=
  let f : Following :=
    { id := userId ++ ":" ++ followedAddress, userId := userId,
      followedAddress := followedAddress, followedAt := now }
  (addFollowing f s, f)

/-- `FollowingService.unfollowUser`: remove the record with id
`` `${userId}:${followedAddress}` ``. -/
def unfollowUser (userId followedAddress : String) (s : FollowStore) : FollowStore :=
  removeFollowing (userId ++ ":" ++ followedAddress) s

/-- `FollowingService.toggleFollow`: if currently following, unfollow and
return `false`; otherwise follow and return `true`. -/
def toggleFollow (now : Int) (userId followedAddress : String) (s : FollowStore) :
    FollowStore × Bool :=
  if isFollowing userId followedAddress s then
    (unfollowUser userId followedAddress s, false)
  else
    ((followUser now userId followedAddress s).1, true)

end OpChan

namespace OpChan

lemma updateIndex_seen (m : ForumMessage) (r : Replica) :
    (updateIndex m r).seen = r.seen := by
  cases m <;> rfl

/-- C6: `apply_message` is idempotent: if applying `m` to a replica was
reported *accepted* and produced the state `r'`, then applying `m` again
leaves the entire replica state unchanged and reports *duplicate*. -/
theorem applyMessage_idempotent (valid : ForumMessage → Bool) (m : ForumMessage)
    (r r' : Replica) (h : applyMessage valid m r = (r', ApplyResult.accepted)) :
    applyMessage valid m r' = (r', ApplyResult.duplicate) := by
  unfold applyMessage at h ⊢
  by_cases hv : valid m = true
  · rw [if_pos hv] at h ⊢
    by_cases hs : r.seen.contains (messageKey m) = true
    · rw [if_pos hs] at h
      have h2 : ApplyResult.duplicate = ApplyResult.accepted := congrArg Prod.snd h
      cases h2
    · rw [if_neg hs] at h
      have h1 : _ = r' := congrArg Prod.fst h
      subst h1
      rw [if_pos (by simp [List.contains_cons])]
  · rw [if_neg hv] at h
    have h2 : ApplyResult.rejected = ApplyResult.accepted := congrArg Prod.snd h
    cases h2

/-- Witness for `applyMessage_idempotent` at a concrete vote message and the
empty replica. -/
def exampleVoteMessage : ForumMessage :=
  .vote { id := "v1", targetId := "p1", value := 1, timestamp := 5, author := "u1" }

theorem applyMessage_idempotent_witness :
    applyMessage (fun _ => true) exampleVoteMessage
        ((applyMessage (fun _ => true) exampleVoteMessage emptyReplica).1)
      = ((applyMessage (fun _ => true) exampleVoteMessage emptyReplica).1,
          ApplyResult.duplicate) :=
  applyMessage_idempotent (fun _ => true) exampleVoteMessage emptyReplica _ (by decide)

end OpChan

namespace OpChan

/-- C10: `FollowingService.toggleFollow` returns the negation of the prior
following state; afterwards `isFollowing` equals the returned value, and the
`userId + ":" + followedAddress` slot holds the freshly built record exactly
when the call returned `true`. -/
theorem toggleFollow_negates (now : Int) (userId followedAddress : String)
    (s : FollowStore) :
    (toggleFollow now userId followedAddress s).2
        = !(isFollowing userId followedAddress s)
    ∧ isFollowing userId followedAddress (toggleFollow now userId followedAddress s).1
        = (toggleFollow now userId followedAddress s).2
    ∧ (toggleFollow now userId followedAddress s).1 (userId ++ ":" ++ followedAddress)
        = (if (toggleFollow now userId followedAddress s).2 then
            some { id := userId ++ ":" ++ followedAddress, userId := userId,
                   followedAddress := followedAddress, followedAt := now }
           else none) := by
  by_cases h : (s (userId ++ ":" ++ followedAddress)).isSome = true
  · obtain ⟨f, hf⟩ := Option.isSome_iff_exists.mp h
    simp [toggleFollow, isFollowing, unfollowUser, removeFollowing, hf]
  · have hf : s (userId ++ ":" ++ followedAddress) = none :=
      Option.not_isSome_iff_eq_none.mp h
    simp [toggleFollow, isFollowing, followUser, addFollowing, hf]

end OpChan

namespace OpChan

/-- C1 (amended): for two votes `v1`, `v2` on the same `(targetId, author)`
slot applied to an empty slot: when the timestamps differ, either
application order stores the vote with the strictly greater timestamp; when
the timestamps are equal, the vote applied first is retained, so the two
orders can disagree. -/
theorem vote_upsert_commutes_amended (v1 v2 : VoteMsg)
    (hkt : v1.targetId = v2.targetId) (hka : v1.author = v2.author) :
    (v1.timestamp ≠ v2.timestamp →
      lookupVote (upsertVote v2 (upsertVote v1 [])) v1.targetId v1.author
          = some (if v1.timestamp < v2.timestamp then v2 else v1)
        ∧ lookupVote (upsertVote v1 (upsertVote v2 [])) v1.targetId v1.author
          = some (if v1.timestamp < v2.timestamp then v2 else v1))
    ∧ (v1.timestamp = v2.timestamp →
      lookupVote (upsertVote v2 (upsertVote v1 [])) v1.targetId v1.author = some v1
        ∧ lookupVote (upsertVote v1 (upsertVote v2 [])) v1.targetId v1.author = some v2) := by
  constructor
  · intro hne
    rcases lt_or_gt_of_ne hne with hlt | hgt
    · rw [if_pos hlt]
      constructor
      · simp [upsertVote, lookupVote, hkt, hka, hlt]
      · simp [upsertVote, lookupVote, hkt, hka, not_lt.mpr (le_of_lt hlt)]
    · rw [if_neg (not_lt.mpr (le_of_lt hgt))]
      constructor
      · simp [upsertVote, lookupVote, hkt, hka, not_lt.mpr (le_of_lt hgt)]
      · simp [upsertVote, lookupVote, hkt, hka, hgt]
  · intro heq
    constructor
    · simp [upsertVote, lookupVote, hkt, hka, heq]
    · simp [upsertVote, lookupVote, hkt, hka, heq.symm, lt_irrefl]

/-- A vote with timestamp 2000 on slot `("t2", "u2")`. -/
def freshVoteA : VoteMsg :=
  { id := "va", targetId := "t2", value := 1, timestamp := 2000, author := "u2" }

/-- A later vote (timestamp 3000) on the same slot. -/
def freshVoteB : VoteMsg :=
  { id := "vb", targetId := "t2", value := -1, timestamp := 3000, author := "u2" }

/-- Witness for `vote_upsert_commutes_amended` at two concrete votes with
distinct timestamps. -/
theorem vote_upsert_commutes_amended_witness :
    lookupVote (upsertVote freshVoteB (upsertVote freshVoteA []))
        freshVoteA.targetId freshVoteA.author
      = some (if freshVoteA.timestamp < freshVoteB.timestamp then freshVoteB else freshVoteA)
    ∧ lookupVote (upsertVote freshVoteA (upsertVote freshVoteB []))
        freshVoteA.targetId freshVoteA.author
      = some (if freshVoteA.timestamp < freshVoteB.timestamp then freshVoteB else freshVoteA) :=
  (vote_upsert_commutes_amended freshVoteA freshVoteB rfl rfl).1 (by decide)

/-- A vote with id `"a"`, timestamp 1000, on slot `("t1", "u1")`. -/
def tieVoteA : VoteMsg :=
  { id := "a", targetId := "t1", value := 1, timestamp := 1000, author := "u1" }

/-- A second vote on the same slot with the same timestamp but id `"b"`. -/
def tieVoteB : VoteMsg :=
  { id := "b", targetId := "t1", value := -1, timestamp := 1000, author := "u1" }

/-- C1 (counterexample): two votes on the same `(targetId, author)` slot with
equal timestamps and distinct ids are order-dependent — each application
order keeps the vote applied first, so the two orders store different votes
and neither order is forced to store the lexicographically greater id. -/
theorem vote_equal_timestamp_order_dependent :
    lookupVote (upsertVote tieVoteB (upsertVote tieVoteA [])) "t1" "u1" = some tieVoteA
    ∧ lookupVote (upsertVote tieVoteA (upsertVote tieVoteB [])) "t1" "u1" = some tieVoteB
    ∧ tieVoteA.timestamp = tieVoteB.timestamp
    ∧ tieVoteA.id ≠ tieVoteB.id
    ∧ tieVoteA ≠ tieVoteB := by
  decide

end OpChan

namespace OpChan

/-- C3: for a message carrying a delegation proof, `verifyMessage` returns
`true` only if the proof's `authMessage` textually contains the message's
browser public key, the proof's wallet address, and the decimal rendering of
the proof's expiry timestamp; consequently any message carrying the same
proof but signed under a browser key not contained in the `authMessage`
fails verification. -/
theorem verify_binds_auth_message (ed wv : String → String → String → Bool)
    (m : OpchanMessage) (p : DelegationProof)
    (hp : m.delegationProof = some p)
    (hv : verifyMessage ed wv m = true) :
    containsSubstr p.authMessage m.browserPubKey = true
    ∧ containsSubstr p.authMessage p.walletAddress = true
    ∧ containsSubstr p.authMessage (toString p.expiryTimestamp) = true
    ∧ ∀ m' : OpchanMessage, m'.delegationProof = some p →
        containsSubstr p.authMessage m'.browserPubKey = false →
        verifyMessage ed wv m' = false := by
  unfold verifyMessage at hv
  rw [hp] at hv
  by_cases h1 : ed m.signature m.signedPayload m.browserPubKey = true
  · simp only [h1, Bool.not_true, Bool.false_eq_true, if_false, reduceIte] at hv
    by_cases h2 : wv p.walletAddress p.authMessage p.walletSignature = true
    · simp only [h2, Bool.not_true, Bool.false_eq_true, if_false, reduceIte] at hv
      by_cases h3 : containsSubstr p.authMessage m.browserPubKey = true
      · by_cases h4 : containsSubstr p.authMessage p.walletAddress = true
        · by_cases h5 : containsSubstr p.authMessage (toString p.expiryTimestamp) = true
          · refine ⟨h3, h4, h5, ?_⟩
            intro m' hp' hc'
            unfold verifyMessage
            rw [hp']
            by_cases g1 : ed m'.signature m'.signedPayload m'.browserPubKey = true
            · simp [g1, h2, hc']
            · simp [g1]
          · simp [h3, h4, h5] at hv
        · simp [h3, h4] at hv
      · simp [h3] at hv
    · simp [h2] at hv
  · simp [h1] at hv

/-- A concrete delegation proof whose authorization message embeds the
browser key `PK`, the wallet address `0xW`, and the expiry `5`. -/
def demoProof : DelegationProof :=
  { authMessage := "Authorize browser key: PK Wallet: 0xW Expires: 5 Nonce: n1",
    walletSignature := "ws", expiryTimestamp := 5, walletAddress := "0xW" }

/-- A concrete wallet-user message carrying `demoProof` and signed under the
browser key `PK`. -/
def demoWalletMsg : OpchanMessage :=
  { typeTag := "post", id := "p9", timestamp := 1000, author := "0xW",
    payload := "x", signature := "sig", browserPubKey := "PK",
    delegationProof := some demoProof }

/-- Witness for `verify_binds_auth_message` at `demoWalletMsg` with
always-accepting cryptographic primitives. -/
theorem verify_binds_auth_message_witness :
    containsSubstr demoProof.authMessage demoWalletMsg.browserPubKey = true
    ∧ containsSubstr demoProof.authMessage demoProof.walletAddress = true
    ∧ containsSubstr demoProof.authMessage (toString demoProof.expiryTimestamp) = true :=
  have h := verify_binds_auth_message (fun _ _ _ => true) (fun _ _ _ => true)
    demoWalletMsg demoProof rfl (by decide)
  ⟨h.1, h.2.1, h.2.2.1⟩

/-- A concrete anonymous message: no delegation proof, author in the
session-id shape. -/
def demoAnonMsg : OpchanMessage :=
  { typeTag := "post", id := "p1", timestamp := 1000,
    author := "3f1c2a4b-5d6e-4f70-8a9b-0c1d2e3f4a5b",
    payload := "x", signature := "sig", browserPubKey := "PK",
    delegationProof := none }

/-- C4: for a message without a delegation proof whose device-key signature
checks out, `verifyMessage` returns `true` iff the author matches the
session-id (UUID) textual shape; and messages signed under an anonymous
delegation never carry a delegation proof. -/
theorem verify_anonymous_iff_uuid (ed wv : String → String → String → Bool)
    (m : OpchanMessage)
    (hnone : m.delegationProof = none)
    (hsig : ed m.signature m.signedPayload m.browserPubKey = true) :
    (verifyMessage ed wv m = true ↔ isUuidFormat m.author = true)
    ∧ (∀ (ed25519Sign : String → String → String) (now expiry : Nat)
        (sid pk sk : String) (u : UnsignedMessage) (sm : OpchanMessage),
        signMessage ed25519Sign now (DelegationInfo.anon sid pk sk expiry) u = some sm →
        sm.delegationProof = none) := by
  constructor
  · unfold verifyMessage
    rw [hnone]
    simp [hsig]
  · intro ed25519Sign now expiry sid pk sk u sm hsm
    unfold signMessage at hsm
    by_cases he : (DelegationInfo.anon sid pk sk expiry).expiry ≤ now
    · rw [if_pos he] at hsm
      cases hsm
    · rw [if_neg he] at hsm
      injection hsm with h1
      rw [← h1]
      rfl

/-- Witness for `verify_anonymous_iff_uuid` at `demoAnonMsg` with an
always-accepting signature primitive. -/
theorem verify_anonymous_iff_uuid_witness :
    verifyMessage (fun _ _ _ => true) (fun _ _ _ => true) demoAnonMsg = true :=
  ((verify_anonymous_iff_uuid (fun _ _ _ => true) (fun _ _ _ => true)
    demoAnonMsg rfl rfl).1).mpr (by decide)

/-- A delegation proof that expired (expiry 5) long before the timestamp of
the message below. -/
def expiredProof : DelegationProof :=
  { authMessage := "Authorize browser key: PK Wallet: 0xW Expires: 5 Nonce: n2",
    walletSignature := "ws", expiryTimestamp := 5, walletAddress := "0xW" }

/-- A message whose delegation proof has expiry 5 but whose own timestamp is
1000: its proof has long expired. -/
def expiredMsg : OpchanMessage :=
  { typeTag := "post", id := "p8", timestamp := 1000, author := "0xW",
    payload := "x", signature := "sig", browserPubKey := "PK",
    delegationProof := some expiredProof }

/-- C5: `verifyMessage` is a pure function of the signed message: evaluated
at any two wall-clock times it returns the same boolean (the implementation
reads no clock), and in particular a message whose delegation proof has long
expired still verifies at every time. -/
theorem verify_reads_no_clock (ed wv : String → String → String → Bool)
    (m : OpchanMessage) (t1 t2 : Int) :
    verifyMessageAt ed wv m t1 = verifyMessageAt ed wv m t2
    ∧ expiredMsg.delegationProof = some expiredProof
    ∧ (expiredProof.expiryTimestamp : Int) < expiredMsg.timestamp
    ∧ (∀ t : Int, verifyMessageAt (fun _ _ _ => true) (fun _ _ _ => true) expiredMsg t = true) := by
  refine ⟨rfl, rfl, by decide, fun t => ?_⟩
  show verifyMessage (fun _ _ _ => true) (fun _ _ _ => true) expiredMsg = true
  decide

end OpChan

namespace OpChan

/-- C9: the per-post comment list is sorted nondecreasing by timestamp and
is a permutation of (exactly) the comments whose `postId` equals the given
post id. -/
theorem commentsByPost_sorted_and_complete (comments : List CommentMsg) (postId : String) :
    List.Sorted (fun a b : CommentMsg => a.timestamp ≤ b.timestamp)
        (commentsByPost comments postId)
    ∧ (commentsByPost comments postId).Perm
        (comments.filter (fun c => c.postId == postId)) := by
  constructor
  · have hs := @List.sorted_mergeSort CommentMsg
      (fun a b => decide (a.timestamp ≤ b.timestamp))
      (fun a b c hab hbc => by
        simp only [decide_eq_true_eq] at hab hbc ⊢
        exact le_trans hab hbc)
      (fun a b => by
        simp only [Bool.or_eq_true, decide_eq_true_eq]
        exact le_total a.timestamp b.timestamp)
      (comments.filter (fun c => c.postId == postId))
    unfold commentsByPost
    exact hs.imp (fun h => of_decide_eq_true h)
  · exact List.mergeSort_perm _ _

end OpChan

namespace OpChan

lemma findPost_cell_eq_any (pid cid : String) :
    ∀ posts : List PostMsg, (posts.map (fun p => p.id)).Nodup →
      (match posts.find? (fun pp => pp.id == pid) with
        | some post => post.cellId == cid
        | none => false)
        = posts.any (fun p => p.id == pid && p.cellId == cid) := by
  intro posts
  induction posts with
  | nil => intro _; rfl
  | cons p ps ih =>
    intro h
    simp only [List.map_cons, List.nodup_cons] at h
    obtain ⟨hnotin, hnodup⟩ := h
    by_cases hid : (p.id == pid) = true
    · have hps : ps.any (fun q => q.id == pid && q.cellId == cid) = false := by
        rw [List.any_eq_false]
        intro q hq
        have hne : q.id ≠ pid := fun hqe =>
          hnotin (List.mem_map.mpr ⟨q, hq, hqe.trans (beq_iff_eq.mp hid).symm⟩)
        simp [hne]
      simp [List.find?_cons, List.any_cons, hid, hps]
    · have hid2 : (p.id == pid) = false := by simpa using hid
      simp [List.find?_cons, List.any_cons, hid2, ih hnodup]

/-- C8: with distinct post ids, every entry of `cellsWithStats` carries
exactly: the number of posts whose `cellId` is the cell's id; the number of
distinct authors among those posts and the comments whose `postId` names a
post of the cell; and the number of those posts and comments whose timestamp
is within the last 7 days (`now - timestamp ≤ recentWindowMs`). -/
theorem cellsWithStats_spec (now : Int) (cells : List CellMsg) (posts : List PostMsg)
    (comments : List CommentMsg) (hids : (posts.map (fun p => p.id)).Nodup) :
    cellsWithStats now cells posts comments = cells.map (fun cell =>
      { cell := cell,
        postCount := (posts.filter (fun p => p.cellId == cell.id)).length,
        activeUsers := ((posts.filter (fun p => p.cellId == cell.id)).map (fun p => p.author)
          ++ (comments.filter (fun c =>
                posts.any (fun p => p.id == c.postId && p.cellId == cell.id))).map
              (fun c => c.author)).dedup.length,
        recentActivity := ((posts.filter (fun p => p.cellId == cell.id)).filter
              (fun p => now - p.timestamp ≤ recentWindowMs)).length
          + ((comments.filter (fun c =>
                posts.any (fun p => p.id == c.postId && p.cellId == cell.id))).filter
              (fun c => now - c.timestamp ≤ recentWindowMs)).length }) := by
  have hcc : ∀ cid, cellComments posts comments cid
      = comments.filter (fun c =>
          posts.any (fun p => p.id == c.postId && p.cellId == cid)) := by
    intro cid
    unfold cellComments
    apply List.filter_congr
    intro c _
    exact findPost_cell_eq_any c.postId cid posts hids
  unfold cellsWithStats
  apply List.map_congr_left
  intro cell _
  rw [hcc]
  rfl

/-- A concrete cell for the `cellsWithStats_spec` witness. -/
def demoCell : CellMsg :=
  { id := "c1", name := "n", description := "d", timestamp := 0, author := "o" }

/-- A concrete post list (one post in `c1`). -/
def demoPosts : List PostMsg :=
  [{ id := "p1", cellId := "c1", title := "t", content := "x", timestamp := 10, author := "a1" }]

/-- A concrete comment list (one comment on `p1`). -/
def demoComments : List CommentMsg :=
  [{ id := "k1", postId := "p1", content := "y", timestamp := 20, author := "a2" }]

/-- Witness for `cellsWithStats_spec` at the concrete one-cell replica. -/
theorem cellsWithStats_spec_witness :
    cellsWithStats 30 [demoCell] demoPosts demoComments = [demoCell].map (fun cell =>
      { cell := cell,
        postCount := (demoPosts.filter (fun p => p.cellId == cell.id)).length,
        activeUsers := ((demoPosts.filter (fun p => p.cellId == cell.id)).map (fun p => p.author)
          ++ (demoComments.filter (fun c =>
                demoPosts.any (fun p => p.id == c.postId && p.cellId == cell.id))).map
              (fun c => c.author)).dedup.length,
        recentActivity := ((demoPosts.filter (fun p => p.cellId == cell.id)).filter
              (fun p => (30 : Int) - p.timestamp ≤ recentWindowMs)).length
          + ((demoComments.filter (fun c =>
                demoPosts.any (fun p => p.id == c.postId && p.cellId == cell.id))).filter
              (fun c => (30 : Int) - c.timestamp ≤ recentWindowMs)).length }) :=
  cellsWithStats_spec 30 [demoCell] demoPosts demoComments (by decide)

end OpChan

namespace OpChan

lemma rawScore_pos (post : PostMsg) (votes : List VoteMsg)
    (comments : List CommentMsg) (verifications : String → Bool) :
    0 < rawScore post votes comments verifications := by
  have h1 : (0:ℝ) ≤ (upvoteCount votes : ℝ) * 10 := by positivity
  have h2 : (0:ℝ) ≤ (comments.length : ℝ) * 3 := by positivity
  have h3 : (0:ℝ) ≤ (if verifications post.author then (20:ℝ) else 0) := by
    split <;> norm_num
  have h4 : (0:ℝ) ≤ (verifiedUpvoteCount verifications votes : ℝ) * 5 := by positivity
  have h5 : (0:ℝ) ≤ (verifiedCommenterCount verifications comments : ℝ) * 10 := by
    positivity
  unfold rawScore
  linarith

lemma timeDecay_pos (now ts : Int) : 0 < timeDecay now ts := Real.exp_pos _

lemma timeDecay_strict (ts : Int) {now1 now2 : Int} (h : now1 < now2) :
    timeDecay now2 ts < timeDecay now1 ts := by
  unfold timeDecay
  apply Real.exp_lt_exp.mpr
  have hc : ((now1 : ℝ)) < (now2 : ℝ) := by exact_mod_cast h
  have hts : ((ts : ℝ)) = (ts : ℝ) := rfl
  nlinarith

/-- C7: for fixed votes, comments, verification and moderation inputs, the
relevance score is nonnegative at every `now`, and strictly decreasing as
`now` increases. -/
theorem relevance_nonneg_strict_decreasing (post : PostMsg) (votes : List VoteMsg)
    (comments : List CommentMsg) (verifications hasModeration : String → Bool)
    (now1 now2 : Int) (h : now1 < now2) :
    0 ≤ calculateScore now1 post votes comments verifications hasModeration
    ∧ calculateScore now2 post votes comments verifications hasModeration
        < calculateScore now1 post votes comments verifications hasModeration := by
  have hraw : 0 < rawScore post votes comments verifications :=
    rawScore_pos post votes comments verifications
  have hd1 : 0 < timeDecay now1 post.timestamp := timeDecay_pos _ _
  have hd2 : 0 < timeDecay now2 post.timestamp := timeDecay_pos _ _
  have hlt : timeDecay now2 post.timestamp < timeDecay now1 post.timestamp :=
    timeDecay_strict _ h
  refine ⟨le_max_left 0 _, ?_⟩
  unfold calculateScore
  by_cases hm : hasModeration post.id = true
  · simp only [hm, if_true]
    rw [max_eq_right (by nlinarith), max_eq_right (by nlinarith)]
    nlinarith
  · have hm2 : hasModeration post.id = false := by simpa using hm
    simp only [hm2, Bool.false_eq_true, if_false]
    rw [max_eq_right (by nlinarith), max_eq_right (by nlinarith)]
    nlinarith

end OpChan

namespace OpChan

/-- The concrete post of the spec's relevance-decay scenario: ENS-verified
author `alice`, timestamp 0. -/
def exPost : PostMsg :=
  { id := "px", cellId := "c1", title := "t", content := "b",
    timestamp := 0, author := "alice" }

/-- Ten concrete upvotes on `exPost` by ten distinct unverified voters. -/
def exUpvotes : List VoteMsg :=
  (List.range 10).map (fun i =>
    { id := "v" ++ toString i, targetId := "px", value := 1,
      timestamp := 0, author := "u" ++ toString i })

/-- The verification map of the scenario: only `alice` is ENS-verified. -/
def exVerif : String → Bool := fun a => a == "alice"

/-- The moderation map of the scenario: no post is moderated. -/
def noModeration : String → Bool := fun _ => false

lemma exRaw : rawScore exPost exUpvotes [] exVerif = 220 := by
  have h1 : upvoteCount exUpvotes = 10 := by decide
  have h2 : verifiedUpvoteCount exVerif exUpvotes = 0 := by decide
  have h3 : verifiedCommenterCount exVerif ([] : List CommentMsg) = 0 := rfl
  have h4 : exVerif exPost.author = true := rfl
  unfold rawScore
  rw [h1, h2, h3, h4]
  norm_num

lemma exDecay0 : timeDecay 0 exPost.timestamp = 1 := by
  unfold timeDecay
  have hts : ((exPost.timestamp : ℝ)) = 0 := by norm_num [exPost]
  rw [hts]
  norm_num

lemma exDecay7 : timeDecay 604800000 exPost.timestamp = Real.exp (-(0.693 : ℝ)) := by
  unfold timeDecay
  have hts : ((exPost.timestamp : ℝ)) = 0 := by norm_num [exPost]
  rw [hts]
  norm_num

lemma exScore0 : calculateScore 0 exPost exUpvotes [] exVerif noModeration = 220 := by
  unfold calculateScore
  rw [show noModeration exPost.id = false from rfl]
  simp only [Bool.false_eq_true, if_false]
  rw [exRaw, exDecay0]
  norm_num

lemma exScore7 :
    calculateScore 604800000 exPost exUpvotes [] exVerif noModeration
      = 220 * Real.exp (-(0.693 : ℝ)) := by
  unfold calculateScore
  rw [show noModeration exPost.id = false from rfl]
  simp only [Bool.false_eq_true, if_false]
  rw [exRaw, exDecay7]
  have hpos : (0:ℝ) ≤ 220 * Real.exp (-(0.693 : ℝ)) := by positivity
  rw [max_eq_right hpos]

lemma half_lt_exp_neg : (1/2 : ℝ) < Real.exp (-(0.693 : ℝ)) := by
  have h2 : Real.exp (-Real.log 2) = 1/2 := by
    rw [Real.exp_neg, Real.exp_log (by norm_num : (0:ℝ) < 2)]
    norm_num
  have h1 : Real.exp (-Real.log 2) < Real.exp (-(0.693 : ℝ)) :=
    Real.exp_lt_exp.mpr (by nlinarith [Real.log_two_gt_d9])
  linarith

lemma exSpec7 :
    relevanceScoreSpec 604800000 exPost exUpvotes [] exVerif noModeration = 110 := by
  have h1 : upvoteCount exUpvotes = 10 := by decide
  have h2 : verifiedUpvoteCount exVerif exUpvotes = 0 := by decide
  have h3 : verifiedCommenterCount exVerif ([] : List CommentMsg) = 0 := rfl
  have h4 : exVerif exPost.author = true := rfl
  unfold relevanceScoreSpec
  rw [h1, h2, h3, h4, show noModeration exPost.id = false from rfl]
  simp only [Bool.false_eq_true, if_false, if_true]
  have hts : ((exPost.timestamp : ℝ)) = 0 := by norm_num [exPost]
  rw [hts]
  have hexp : Real.exp (-(Real.log 2) * ((((604800000 : Int) : ℝ) - 0) / 86400000) / 7)
      = 1/2 := by
    rw [show -(Real.log 2) * ((((604800000 : Int) : ℝ) - 0) / 86400000) / 7
        = -Real.log 2 from by
      push_cast
      rw [sub_zero, show (604800000 : ℝ) / 86400000 = 7 from by norm_num,
        mul_div_assoc]
      norm_num]
    rw [Real.exp_neg, Real.exp_log (by norm_num : (0:ℝ) < 2)]
    norm_num
  rw [hexp]
  norm_num

/-- C2 (counterexample): for the spec's scenario post (10 upvotes, no
comments, ENS-verified author, no moderation) at `now = timestamp + 7 days`,
the score computed by the code is not 60; the spec formula (decay constant
`ln 2`) yields 110 there, and the code (decay constant `0.693`) disagrees
with it as well. -/
theorem calculateScore_decay_counterexample :
    calculateScore 604800000 exPost exUpvotes [] exVerif noModeration ≠ 60
    ∧ relevanceScoreSpec 604800000 exPost exUpvotes [] exVerif noModeration = 110
    ∧ calculateScore 604800000 exPost exUpvotes [] exVerif noModeration
        ≠ relevanceScoreSpec 604800000 exPost exUpvotes [] exVerif noModeration := by
  have hs := exScore7
  have hlow := half_lt_exp_neg
  refine ⟨?_, exSpec7, ?_⟩
  · rw [hs]
    nlinarith
  · rw [hs, exSpec7]
    nlinarith

/-- C2 (amended): the relevance score equals
`max 0 ((100 + 10·upvotes + 3·#comments + author bonus + 5·verified upvoters
+ 10·distinct verified commenters) · exp(−0.693·daysOld/7) · (0.5 if a
moderation record exists else 1))` — the decay constant is the literal
`0.693`, not `ln 2`; for the scenario post the score at `now = timestamp` is
exactly 220, and at `now = timestamp + 7 days` it is `220·exp(−0.693)`,
which is strictly greater than 110 (so neither 60 nor the spec formula's
110). -/
theorem calculateScore_formula_amended (now : Int) (post : PostMsg)
    (votes : List VoteMsg) (comments : List CommentMsg)
    (verifications hasModeration : String → Bool) :
    calculateScore now post votes comments verifications hasModeration
      = max 0 ((100 + 10 * (upvoteCount votes : ℝ) + 3 * (comments.length : ℝ)
          + (if verifications post.author then (20:ℝ) else 0)
          + 5 * (verifiedUpvoteCount verifications votes : ℝ)
          + 10 * (verifiedCommenterCount verifications comments : ℝ))
        * Real.exp (-(0.693) * (((now : ℝ) - (post.timestamp : ℝ)) / 86400000) / 7)
        * (if hasModeration post.id then (0.5:ℝ) else 1))
    ∧ calculateScore 0 exPost exUpvotes [] exVerif noModeration = 220
    ∧ calculateScore 604800000 exPost exUpvotes [] exVerif noModeration
        = 220 * Real.exp (-(0.693 : ℝ))
    ∧ 110 < calculateScore 604800000 exPost exUpvotes [] exVerif noModeration := by
  refine ⟨?_, exScore0, exScore7, ?_⟩
  · have harg : -0.693 * (((now : ℝ) - (post.timestamp : ℝ)) / (1000*60*60*24)) / 7
        = -(0.693) * (((now : ℝ) - (post.timestamp : ℝ)) / 86400000) / 7 := by
      norm_num
    unfold calculateScore rawScore timeDecay
    rw [harg]
    by_cases hm : hasModeration post.id = true
    · simp only [hm, if_true]
      congr 1
      ring
    · have hm2 : hasModeration post.id = false := by simpa using hm
      simp only [hm2, Bool.false_eq_true, if_false]
      congr 1
      ring
  · rw [exScore7]
    nlinarith [half_lt_exp_neg]

/-- Witness for `relevance_nonneg_strict_decreasing` at the scenario post,
comparing `now = 0` and `now = 604800000`. -/
theorem relevance_nonneg_strict_decreasing_witness :
    0 ≤ calculateScore 0 exPost exUpvotes [] exVerif noModeration
    ∧ calculateScore 604800000 exPost exUpvotes [] exVerif noModeration
        < calculateScore 0 exPost exUpvotes [] exVerif noModeration :=
  relevance_nonneg_strict_decreasing exPost exUpvotes [] exVerif noModeration
    0 604800000 (by norm_num)

end OpChan
